import Mathlib

/-!
Verification of `src/cloudwatch_logs_cost_estimator.py` (CloudWatchCashBack).

Shallow embedding conventions:
* Python floats are modelled as rationals (`ℚ`); the arithmetic of the source
  is translated literally.
* A raised exception is modelled as `none`; a normal return as `some`.
* The pricing document read by `load_pricing_data` (`cloudwatch_pricing.json`)
  is not among the sources, so the loaded pricing data is passed explicitly as
  a parameter of type `PricingData` to every function that calls
  `load_pricing_data` in the source.  `pricing_data.get(region, ...)` becomes
  an `Option`-valued lookup; a `KeyError` on the default region is `none`.
* The Python dict `daily_usage` (string date keys, unique by construction)
  is modelled as an association list `List (String × DayUsage)`; uniqueness of
  keys is carried as a `Nodup` hypothesis where a claim needs it.
-/

/-- Tier rates of one vended-logs schedule, mirroring the four fields
`first_10tb`, `next_20tb`, `next_20tb_plus`, `over_50tb` of the pricing
document (spec §6 shape). -/
structure TierSchedule where
  first_10tb : ℚ
  next_20tb : ℚ
  next_20tb_plus : ℚ
  over_50tb : ℚ
deriving DecidableEq

/-- The `vended_logs` object of one region's `logs` pricing. -/
structure VendedLogsPricing where
  to_cloudwatch_logs_standard : TierSchedule
  to_cloudwatch_logs_infrequent : TierSchedule
deriving DecidableEq

/-- The `logs` object of one region's pricing. -/
structure LogsPricing where
  standard_ingestion : ℚ
  infrequent_ingestion : ℚ
  vended_logs : VendedLogsPricing
deriving DecidableEq

/-- One region's entry in the pricing document. -/
structure RegionPricing where
  logs : LogsPricing
deriving DecidableEq

/-- The parsed pricing document: a mapping from region identifier to that
region's pricing (`none` when the region key is absent). -/
abbrev PricingData := String → Option RegionPricing

/-- Embeds `pricing_data.get(region, pricing_data['us-east-1'])` (lines 74 and
93 of the source): the region's own entry when present, otherwise the
`us-east-1` entry; `none` models the `KeyError` when even `us-east-1` is
absent from the document. -/
def regionLookup (pricing_data : PricingData) (region : String) : Option RegionPricing :=
  match pricing_data region with
  | some region_pricing => some region_pricing
  | none => pricing_data "us-east-1"

/-- Embeds `calculate_old_cloudwatch_cost` (lines 61-78): flat per-GB cost
`standard_gb * standard_ingestion + ia_gb * infrequent_ingestion` using the
looked-up region pricing. -/
def calculate_old_cloudwatch_cost (pricing_data : PricingData) (standard_gb ia_gb : ℚ)
    (region : String) : Option ℚ :=
  match regionLookup pricing_data region with
  | none => none
  | some region_pricing =>
    some (standard_gb * region_pricing.logs.standard_ingestion +
      ia_gb * region_pricing.logs.infrequent_ingestion)

/-- The dict returned by `calculate_new_cloudwatch_cost` (lines 145-154). -/
structure NewCostResult where
  daily_gb_ingested : ℚ
  monthly_gb_ingested : ℚ
  tier1_cost : ℚ
  tier2_cost : ℚ
  tier3_cost : ℚ
  tier4_cost : ℚ
  total_monthly_cost : ℚ
  total_daily_cost : ℚ
deriving DecidableEq

/-- `TB_to_GB = 1000` (line 100). -/
def TB_to_GB : ℚ := 1000

/-- `tier1_threshold = 10 * TB_to_GB` (line 103). -/
def tier1_threshold : ℚ := 10 * TB_to_GB

/-- `tier2_threshold = 30 * TB_to_GB` (line 104). -/
def tier2_threshold : ℚ := 30 * TB_to_GB

/-- `tier3_threshold = 50 * TB_to_GB` (line 105). -/
def tier3_threshold : ℚ := 50 * TB_to_GB

/-- GB of a monthly volume attributed to band 1: `min(monthly_gb,
tier1_threshold)` (`tier1_usage`, line 123 of the source). -/
def tier1_usage (monthly_gb : ℚ) : ℚ := min monthly_gb tier1_threshold

/-- GB of a monthly volume attributed to band 2: `min(monthly_gb -
tier1_threshold, tier2_threshold - tier1_threshold)` when the guard
`monthly_gb > tier1_threshold` of line 127 holds, else `0` (no assignment,
`tier2_cost` stays `0`). -/
def tier2_usage (monthly_gb : ℚ) : ℚ :=
  if monthly_gb > tier1_threshold then
    min (monthly_gb - tier1_threshold) (tier2_threshold - tier1_threshold)
  else 0

/-- GB of a monthly volume attributed to band 3 (lines 132-133). -/
def tier3_usage (monthly_gb : ℚ) : ℚ :=
  if monthly_gb > tier2_threshold then
    min (monthly_gb - tier2_threshold) (tier3_threshold - tier2_threshold)
  else 0

/-- GB of a monthly volume attributed to band 4: `monthly_gb -
tier3_threshold` when `monthly_gb > tier3_threshold` (lines 137-138). -/
def tier4_usage (monthly_gb : ℚ) : ℚ :=
  if monthly_gb > tier3_threshold then monthly_gb - tier3_threshold else 0

/-- The tier computation of `calculate_new_cloudwatch_cost` (lines 113-154),
after the schedule has been selected: monthly volume is `daily * 30`, each
band's cost is its clamped usage times its rate, guarded exactly as in the
source, and the daily total is the monthly total divided by 30. -/
def tierBreakdown (vended_logs_pricing : TierSchedule) (daily_gb_ingested : ℚ) : NewCostResult :=
  let tier1_price := vended_logs_pricing.first_10tb
  let tier2_price := vended_logs_pricing.next_20tb
  let tier3_price := vended_logs_pricing.next_20tb_plus
  let tier4_price := vended_logs_pricing.over_50tb
  let monthly_gb := daily_gb_ingested * 30
  let tier1_cost := min monthly_gb tier1_threshold * tier1_price
  let tier2_cost :=
    if monthly_gb > tier1_threshold then
      min (monthly_gb - tier1_threshold) (tier2_threshold - tier1_threshold) * tier2_price
    else 0
  let tier3_cost :=
    if monthly_gb > tier2_threshold then
      min (monthly_gb - tier2_threshold) (tier3_threshold - tier2_threshold) * tier3_price
    else 0
  let tier4_cost :=
    if monthly_gb > tier3_threshold then (monthly_gb - tier3_threshold) * tier4_price
    else 0
  let total_monthly_cost := tier1_cost + tier2_cost + tier3_cost + tier4_cost
  { daily_gb_ingested := daily_gb_ingested
    monthly_gb_ingested := monthly_gb
    tier1_cost := tier1_cost
    tier2_cost := tier2_cost
    tier3_cost := tier3_cost
    tier4_cost := tier4_cost
    total_monthly_cost := total_monthly_cost
    total_daily_cost := total_monthly_cost / 30 }

/-- Embeds `calculate_new_cloudwatch_cost` (lines 80-154): region lookup,
schedule selection by `is_ia` (line 96), then the tier computation. -/
def calculate_new_cloudwatch_cost (pricing_data : PricingData) (daily_gb_ingested : ℚ)
    (region : String) ( is_ia : Bool) : Option NewCostResult :=
  match regionLookup pricing_data region with
  | none => none
  | some region_pricing =>
    some (tierBreakdown
      (if is_ia then region_pricing.logs.vended_logs.to_cloudwatch_logs_infrequent
       else region_pricing.logs.vended_logs.to_cloudwatch_logs_standard)
      daily_gb_ingested)

/-- One value of the `daily_usage` dict: `{'standard': ..., 'ia': ...}`. -/
structure DayUsage where
  standard : ℚ
  ia : ℚ
deriving DecidableEq

/-- One element of `daily_comparisons` (lines 291-299). -/
structure DailyComparison where
  date : String
  old_cost : ℚ
  new_cost : ℚ
  standard_gb : ℚ
  ia_gb : ℚ
  total_gb : ℚ
  difference : ℚ
deriving DecidableEq

/-- The dict returned by `analyze_costs` (lines 301-309). -/
structure CostAnalysis where
  total_old_cost : ℚ
  total_new_cost : ℚ
  total_standard_gb : ℚ
  total_ia_gb : ℚ
  total_gb : ℚ
  daily_comparisons : List DailyComparison
  region : String
deriving DecidableEq

/-- Order used by `sorted(daily_usage.items())` (line 281): Python sorts the
(date, data) tuples, which for distinct date keys is ordering by date. -/
def dateLE (a b : String × DayUsage) : Prop := a.1 ≤ b.1

instance : DecidableRel dateLE := fun a b => inferInstanceAs (Decidable (a.1 ≤ b.1))

instance : IsTotal (String × DayUsage) dateLE := ⟨fun a b => le_total a.1 b.1⟩

instance : IsTrans (String × DayUsage) dateLE := ⟨fun _ _ _ h h2 => le_trans h h2⟩

/-- One iteration of the per-day loop of `analyze_costs` (lines 281-299):
the flat cost of the day's volumes, the two tiered daily costs (each day's
volume passed as the daily rate), and the assembled row. -/
def dailyRow (pricing_data : PricingData) (region : String) (entry : String × DayUsage) :
    Option DailyComparison :=
  match calculate_old_cloudwatch_cost pricing_data entry.2.standard entry.2.ia region with
  | none => none
  | some daily_old_cost =>
    match calculate_new_cloudwatch_cost pricing_data entry.2.standard region false with
    | none => none
    | some standard_data =>
      match calculate_new_cloudwatch_cost pricing_data entry.2.ia region true with
      | none => none
      | some ia_data =>
        let daily_new_cost := standard_data.total_daily_cost + ia_data.total_daily_cost
        some { date := entry.1
               old_cost := daily_old_cost
               new_cost := daily_new_cost
               standard_gb := entry.2.standard
               ia_gb := entry.2.ia
               total_gb := entry.2.standard + entry.2.ia
               difference := daily_new_cost - daily_old_cost }

/-- The per-day loop of `analyze_costs` over the date-sorted entries; any
failing day fails the whole loop (exception propagation). -/
def mapRows (pricing_data : PricingData) (region : String) :
    List (String × DayUsage) → Option (List DailyComparison)
  | [] => some []
  | entry :: rest =>
    match dailyRow pricing_data region entry with
    | none => none
    | some row =>
      match mapRows pricing_data region rest with
      | none => none
      | some rows => some (row :: rows)

/-- Embeds `analyze_costs` (lines 256-309): totals over all days, flat cost of
the totals, tiered cost of the totals split by storage class (each total
divided by 30 to a daily rate), then the per-day comparison rows in date
order. -/
def analyze_costs (pricing_data : PricingData) (daily_usage : List (String × DayUsage))
    (region : String) : Option CostAnalysis :=
  let total_standard_gb := (daily_usage.map fun day => day.2.standard).sum
  let total_ia_gb := (daily_usage.map fun day => day.2.ia).sum
  let total_gb := total_standard_gb + total_ia_gb
  match calculate_old_cloudwatch_cost pricing_data total_standard_gb total_ia_gb region with
  | none => none
  | some old_cost =>
    match calculate_new_cloudwatch_cost pricing_data (total_standard_gb / 30) region false with
    | none => none
    | some standard_cost_data =>
      match calculate_new_cloudwatch_cost pricing_data (total_ia_gb / 30) region true with
      | none => none
      | some ia_cost_data =>
        let new_cost := standard_cost_data.total_monthly_cost + ia_cost_data.total_monthly_cost
        match mapRows pricing_data region (List.insertionSort dateLE daily_usage) with
        | none => none
        | some daily_comparisons =>
          some { total_old_cost := old_cost
                 total_new_cost := new_cost
                 total_standard_gb := total_standard_gb
                 total_ia_gb := total_ia_gb
                 total_gb := total_gb
                 daily_comparisons := daily_comparisons
                 region := region }

/-- Modelled from the spec: the repository reads its rate tables from
`cloudwatch_pricing.json`, which is not among the sources.  This concrete
`RegionPricing` follows the spec's numbers: flat standard rate $0.50/GB
(spec §8 scenario A), strictly decreasing vended-logs tier rates
0.30/0.15/0.07/0.05 (spec §8 scenario B) for the standard class, and a
cheaper decreasing schedule for the infrequent class. -/
def samplePricing : RegionPricing :=
  { logs :=
    { standard_ingestion := 1/2
      infrequent_ingestion := 1/4
      vended_logs :=
      { to_cloudwatch_logs_standard :=
        { first_10tb := 3/10, next_20tb := 3/20, next_20tb_plus := 7/100, over_50tb := 1/20 }
        to_cloudwatch_logs_infrequent :=
        { first_10tb := 3/20, next_20tb := 1/10, next_20tb_plus := 1/20, over_50tb := 1/40 } } } }

/-- Modelled from the spec: a pricing document containing exactly the default
region `us-east-1` (the spec's required fallback region, §6). -/
def samplePd : PricingData :=
  fun region => if region = "us-east-1" then some samplePricing else none

/-- Abbreviation for the sample standard-class tier schedule. -/
def sampleStd : TierSchedule := samplePricing.logs.vended_logs.to_cloudwatch_logs_standard

lemma tier1_threshold_eq : tier1_threshold = 10000 := by norm_num [tier1_threshold, TB_to_GB]

lemma tier2_threshold_eq : tier2_threshold = 30000 := by norm_num [tier2_threshold, TB_to_GB]

lemma tier3_threshold_eq : tier3_threshold = 50000 := by norm_num [tier3_threshold, TB_to_GB]

lemma tier_usages_partition_aux (m : ℚ) (hm : 0 ≤ m) :
    (0 ≤ tier1_usage m ∧ 0 ≤ tier2_usage m ∧ 0 ≤ tier3_usage m ∧ 0 ≤ tier4_usage m) ∧
    (tier1_usage m ≤ 10000 ∧ tier2_usage m ≤ 20000 ∧ tier3_usage m ≤ 20000) ∧
    tier1_usage m + tier2_usage m + tier3_usage m + tier4_usage m = m := by
  simp only [tier1_usage, tier2_usage, tier3_usage, tier4_usage, tier1_threshold_eq,
    tier2_threshold_eq, tier3_threshold_eq, min_def]
  split_ifs <;> refine ⟨⟨?_, ?_, ?_, ?_⟩, ⟨?_, ?_, ?_⟩, ?_⟩ <;> linarith

lemma tierBreakdown_tier1_cost (vlp : TierSchedule) (d : ℚ) :
    (tierBreakdown vlp d).tier1_cost = tier1_usage (d * 30) * vlp.first_10tb := rfl

lemma tierBreakdown_tier2_cost (vlp : TierSchedule) (d : ℚ) :
    (tierBreakdown vlp d).tier2_cost = tier2_usage (d * 30) * vlp.next_20tb := by
  unfold tierBreakdown tier2_usage
  dsimp only
  split_ifs <;> ring

lemma tierBreakdown_tier3_cost (vlp : TierSchedule) (d : ℚ) :
    (tierBreakdown vlp d).tier3_cost = tier3_usage (d * 30) * vlp.next_20tb_plus := by
  unfold tierBreakdown tier3_usage
  dsimp only
  split_ifs <;> ring

lemma tierBreakdown_tier4_cost (vlp : TierSchedule) (d : ℚ) :
    (tierBreakdown vlp d).tier4_cost = tier4_usage (d * 30) * vlp.over_50tb := by
  unfold tierBreakdown tier4_usage
  dsimp only
  split_ifs <;> ring

lemma tierBreakdown_total_monthly (vlp : TierSchedule) (d : ℚ) :
    (tierBreakdown vlp d).total_monthly_cost =
      tier1_usage (d * 30) * vlp.first_10tb + tier2_usage (d * 30) * vlp.next_20tb +
      tier3_usage (d * 30) * vlp.next_20tb_plus + tier4_usage (d * 30) * vlp.over_50tb := by
  unfold tierBreakdown tier1_usage tier2_usage tier3_usage tier4_usage
  dsimp only
  split_ifs <;> ring

lemma tierBreakdown_total_daily (vlp : TierSchedule) (d : ℚ) :
    (tierBreakdown vlp d).total_daily_cost = (tierBreakdown vlp d).total_monthly_cost / 30 := rfl

/-- C1: for every non-negative daily input volume, the four tier-band usage
amounts of the tiered calculator (at `monthly_gb = daily * 30`) are
non-negative, bounded by the band widths 10000 / 20000 / 20000 GB (band 4
unbounded), sum exactly to `monthly_gb`, and are exactly the amounts the
calculator multiplies by the band rates. -/
theorem tier_usages_partition (daily_gb_ingested : ℚ) (h : 0 ≤ daily_gb_ingested) :
    (0 ≤ tier1_usage (daily_gb_ingested * 30) ∧ 0 ≤ tier2_usage (daily_gb_ingested * 30) ∧
      0 ≤ tier3_usage (daily_gb_ingested * 30) ∧ 0 ≤ tier4_usage (daily_gb_ingested * 30)) ∧
    (tier1_usage (daily_gb_ingested * 30) ≤ 10000 ∧
      tier2_usage (daily_gb_ingested * 30) ≤ 20000 ∧
      tier3_usage (daily_gb_ingested * 30) ≤ 20000) ∧
    (tier1_usage (daily_gb_ingested * 30) + tier2_usage (daily_gb_ingested * 30) +
      tier3_usage (daily_gb_ingested * 30) + tier4_usage (daily_gb_ingested * 30) =
      daily_gb_ingested * 30) ∧
    ∀ vlp : TierSchedule,
      (tierBreakdown vlp daily_gb_ingested).tier1_cost =
        tier1_usage (daily_gb_ingested * 30) * vlp.first_10tb ∧
      (tierBreakdown vlp daily_gb_ingested).tier2_cost =
        tier2_usage (daily_gb_ingested * 30) * vlp.next_20tb ∧
      (tierBreakdown vlp daily_gb_ingested).tier3_cost =
        tier3_usage (daily_gb_ingested * 30) * vlp.next_20tb_plus ∧
      (tierBreakdown vlp daily_gb_ingested).tier4_cost =
        tier4_usage (daily_gb_ingested * 30) * vlp.over_50tb := by
  obtain ⟨h1, h2, h3⟩ := tier_usages_partition_aux (daily_gb_ingested * 30) (by positivity)
  exact ⟨h1, h2, h3, fun vlp => ⟨tierBreakdown_tier1_cost vlp _, tierBreakdown_tier2_cost vlp _,
    tierBreakdown_tier3_cost vlp _, tierBreakdown_tier4_cost vlp _⟩⟩

/-- Witness for C1 at the concrete daily volume 1400 GB (monthly 42000 GB). -/
theorem tier_usages_partition_witness :
    0 ≤ (1400 : ℚ) ∧
    tier1_usage (1400 * 30) + tier2_usage (1400 * 30) + tier3_usage (1400 * 30) +
      tier4_usage (1400 * 30) = 1400 * 30 :=
  ⟨by norm_num, (tier_usages_partition 1400 (by norm_num)).2.2.1⟩

/-- C3: at exactly `monthly_gb = 10000` the whole volume sits in band 1 and
the costs of bands 2-4 are zero; strictly above 10000 the excess over 10000
goes to band 2 capped at its 20000 GB width, and the band usages still
partition the volume (no double counting). -/
theorem tier_boundary_attribution (vlp : TierSchedule) (daily_gb_ingested : ℚ) :
    (daily_gb_ingested * 30 = 10000 →
      tier1_usage (daily_gb_ingested * 30) = daily_gb_ingested * 30 ∧
      (tierBreakdown vlp daily_gb_ingested).tier2_cost = 0 ∧
      (tierBreakdown vlp daily_gb_ingested).tier3_cost = 0 ∧
      (tierBreakdown vlp daily_gb_ingested).tier4_cost = 0) ∧
    (daily_gb_ingested * 30 > 10000 →
      tier2_usage (daily_gb_ingested * 30) = min (daily_gb_ingested * 30 - 10000) 20000 ∧
      tier1_usage (daily_gb_ingested * 30) + tier2_usage (daily_gb_ingested * 30) +
        tier3_usage (daily_gb_ingested * 30) + tier4_usage (daily_gb_ingested * 30) =
        daily_gb_ingested * 30) := by
  constructor
  · intro h
    refine ⟨?_, ?_, ?_, ?_⟩
    · rw [tier1_usage, h, tier1_threshold_eq]
      norm_num
    · rw [tierBreakdown_tier2_cost, tier2_usage, h, tier1_threshold_eq]
      norm_num
    · rw [tierBreakdown_tier3_cost, tier3_usage, h, tier2_threshold_eq]
      norm_num
    · rw [tierBreakdown_tier4_cost, tier4_usage, h, tier3_threshold_eq]
      norm_num
  · intro h
    constructor
    · rw [tier2_usage, tier1_threshold_eq, tier2_threshold_eq]
      rw [if_pos (by linarith)]
      norm_num
    · exact (tier_usages_partition_aux (daily_gb_ingested * 30) (by linarith)).2.2

/-- Witness for C3: both boundary cases at concrete inputs (monthly 10000 GB
via daily 1000/3 GB, and monthly 15000 GB via daily 500 GB). -/
theorem tier_boundary_attribution_witness :
    ((1000 : ℚ)/3 * 30 = 10000 ∧ (tierBreakdown sampleStd (1000/3)).tier2_cost = 0) ∧
    ((500 : ℚ) * 30 > 10000 ∧
      tier2_usage (500 * 30) = min ((500 : ℚ) * 30 - 10000) 20000) :=
  ⟨⟨by norm_num, ((tier_boundary_attribution sampleStd (1000/3)).1 (by norm_num)).2.1⟩,
   ⟨by norm_num, ((tier_boundary_attribution sampleStd 500).2 (by norm_num)).1⟩⟩

lemma tier1_usage_mono {a b : ℚ} (h : a ≤ b) : tier1_usage a ≤ tier1_usage b :=
  min_le_min h le_rfl

lemma tier2_usage_mono {a b : ℚ} (h : a ≤ b) : tier2_usage a ≤ tier2_usage b := by
  unfold tier2_usage
  rw [tier1_threshold_eq, tier2_threshold_eq]
  split_ifs with h1 h2
  · exact min_le_min (by linarith) le_rfl
  · exact absurd (lt_of_lt_of_le h1 h) h2
  · exact le_min (by linarith) (by norm_num)
  · exact le_rfl

lemma tier3_usage_mono {a b : ℚ} (h : a ≤ b) : tier3_usage a ≤ tier3_usage b := by
  unfold tier3_usage
  rw [tier2_threshold_eq, tier3_threshold_eq]
  split_ifs with h1 h2
  · exact min_le_min (by linarith) le_rfl
  · exact absurd (lt_of_lt_of_le h1 h) h2
  · exact le_min (by linarith) (by norm_num)
  · exact le_rfl

lemma tier4_usage_mono {a b : ℚ} (h : a ≤ b) : tier4_usage a ≤ tier4_usage b := by
  unfold tier4_usage
  rw [tier3_threshold_eq]
  split_ifs with h1 h2
  · linarith
  · linarith
  · linarith
  · exact le_rfl

/-- C4: with non-negative rates in every band, the tiered calculator's
`total_monthly_cost` is monotonically non-decreasing in the daily input
volume. -/
theorem total_monthly_cost_monotone (vlp : TierSchedule)
    (hp1 : 0 ≤ vlp.first_10tb) (hp2 : 0 ≤ vlp.next_20tb)
    (hp3 : 0 ≤ vlp.next_20tb_plus) (hp4 : 0 ≤ vlp.over_50tb)
    (a b : ℚ) (ha : 0 ≤ a) (hab : a ≤ b) :
    (tierBreakdown vlp a).total_monthly_cost ≤ (tierBreakdown vlp b).total_monthly_cost := by
  rw [tierBreakdown_total_monthly, tierBreakdown_total_monthly]
  have h30 : a * 30 ≤ b * 30 := by linarith
  exact add_le_add
    (add_le_add
      (add_le_add (mul_le_mul_of_nonneg_right (tier1_usage_mono h30) hp1)
        (mul_le_mul_of_nonneg_right (tier2_usage_mono h30) hp2))
      (mul_le_mul_of_nonneg_right (tier3_usage_mono h30) hp3))
    (mul_le_mul_of_nonneg_right (tier4_usage_mono h30) hp4)

/-- Witness for C4 at the concrete volumes 300 GB/day and 2000 GB/day under
the sample standard schedule. -/
theorem total_monthly_cost_monotone_witness :
    0 ≤ sampleStd.first_10tb ∧ (0 : ℚ) ≤ 300 ∧ (300 : ℚ) ≤ 2000 ∧
    (tierBreakdown sampleStd 300).total_monthly_cost ≤
      (tierBreakdown sampleStd 2000).total_monthly_cost :=
  ⟨by norm_num [sampleStd, samplePricing], by norm_num, by norm_num,
    total_monthly_cost_monotone sampleStd (by norm_num [sampleStd, samplePricing])
      (by norm_num [sampleStd, samplePricing]) (by norm_num [sampleStd, samplePricing])
      (by norm_num [sampleStd, samplePricing]) 300 2000 (by norm_num) (by norm_num)⟩

lemma tier1_usage_of_le {m : ℚ} (h : m ≤ 10000) : tier1_usage m = m := by
  unfold tier1_usage
  rw [tier1_threshold_eq]
  exact min_eq_left h

lemma tier2_usage_of_le {m : ℚ} (h : m ≤ 10000) : tier2_usage m = 0 := by
  unfold tier2_usage
  rw [tier1_threshold_eq]
  exact if_neg (by linarith)

lemma tier3_usage_of_le {m : ℚ} (h : m ≤ 10000) : tier3_usage m = 0 := by
  unfold tier3_usage
  rw [tier2_threshold_eq]
  exact if_neg (by linarith)

lemma tier4_usage_of_le {m : ℚ} (h : m ≤ 10000) : tier4_usage m = 0 := by
  unfold tier4_usage
  rw [tier3_threshold_eq]
  exact if_neg (by linarith)

/-- C2 counterexample: at the negative inputs `standard_gb = -1` (flat model)
and `daily_gb_ingested = -1` (tiered model) neither calculator rejects the
calculation (a raised `ValidationError` would be `none` in this embedding):
both silently return values, refuting the claim as stated. -/
theorem negative_input_counterexample :
    calculate_old_cloudwatch_cost samplePd (-1) 0 "us-east-1" = some (-(1/2)) ∧
    (calculate_new_cloudwatch_cost samplePd (-1) "us-east-1" false).map
      NewCostResult.total_monthly_cost = some (-9) := by
  have hl : regionLookup samplePd "us-east-1" = some samplePricing := rfl
  constructor
  · unfold calculate_old_cloudwatch_cost
    rw [hl]
    norm_num [samplePricing]
  · unfold calculate_new_cloudwatch_cost
    rw [hl]
    have ht : (tierBreakdown samplePricing.logs.vended_logs.to_cloudwatch_logs_standard
        ((-1) : ℚ)).total_monthly_cost = -9 := by
      rw [tierBreakdown_total_monthly, tier1_usage_of_le (by norm_num),
        tier2_usage_of_le (by norm_num), tier3_usage_of_le (by norm_num),
        tier4_usage_of_le (by norm_num)]
      norm_num [samplePricing]
    simp [ht]

/-- C2 amended: neither calculator validates its usage inputs; for every
input — negative ones included — `calculate_old_cloudwatch_cost` returns the
flat formula's value and `calculate_new_cloudwatch_cost` returns the tier
breakdown, so no input is ever rejected. -/
theorem negative_inputs_accepted (pricing_data : PricingData) (region : String)
    (rp : RegionPricing) (h : regionLookup pricing_data region = some rp)
    (standard_gb ia_gb daily_gb_ingested : ℚ) ( is_ia : Bool) :
    calculate_old_cloudwatch_cost pricing_data standard_gb ia_gb region =
      some (standard_gb * rp.logs.standard_ingestion +
        ia_gb * rp.logs.infrequent_ingestion) ∧
    calculate_new_cloudwatch_cost pricing_data daily_gb_ingested region is_ia =
      some (tierBreakdown
        (if is_ia then rp.logs.vended_logs.to_cloudwatch_logs_infrequent
         else rp.logs.vended_logs.to_cloudwatch_logs_standard) daily_gb_ingested) := by
  unfold calculate_old_cloudwatch_cost calculate_new_cloudwatch_cost
  rw [h]
  exact ⟨rfl, rfl⟩

/-- Witness for the amended C2 at the negative inputs `-2`, `-3` and `-5`. -/
theorem negative_inputs_accepted_witness :
    regionLookup samplePd "us-east-1" = some samplePricing ∧
    calculate_old_cloudwatch_cost samplePd (-2) (-3) "us-east-1" =
      some ((-2) * samplePricing.logs.standard_ingestion +
        (-3) * samplePricing.logs.infrequent_ingestion) ∧
    calculate_new_cloudwatch_cost samplePd (-5) "us-east-1" true =
      some (tierBreakdown samplePricing.logs.vended_logs.to_cloudwatch_logs_infrequent (-5)) :=
  ⟨rfl,
   (negative_inputs_accepted samplePd "us-east-1" samplePricing rfl (-2) (-3) (-5) true).1,
   (negative_inputs_accepted samplePd "us-east-1" samplePricing rfl (-2) (-3) (-5) true).2⟩

lemma regionLookup_of_missing (pricing_data : PricingData) (region : String)
    (h : pricing_data region = none) :
    regionLookup pricing_data region = pricing_data "us-east-1" := by
  unfold regionLookup
  rw [h]

lemma regionLookup_default (pricing_data : PricingData) :
    regionLookup pricing_data "us-east-1" = pricing_data "us-east-1" := by
  unfold regionLookup
  cases pricing_data "us-east-1" <;> simp

/-- C5: a region absent from the pricing data silently falls back to the
`us-east-1` entry: when the document has a `us-east-1` entry, both calculators
return (no `none`) and return exactly what a call with region `us-east-1`
returns. -/
theorem unknown_region_fallback (pricing_data : PricingData) (region : String)
    (h : pricing_data region = none)
    (p : RegionPricing) (hdef : pricing_data "us-east-1" = some p)
    (standard_gb ia_gb daily_gb_ingested : ℚ) ( is_ia : Bool) :
    calculate_old_cloudwatch_cost pricing_data standard_gb ia_gb region =
      calculate_old_cloudwatch_cost pricing_data standard_gb ia_gb "us-east-1" ∧
    (calculate_old_cloudwatch_cost pricing_data standard_gb ia_gb region).isSome ∧
    calculate_new_cloudwatch_cost pricing_data daily_gb_ingested region is_ia =
      calculate_new_cloudwatch_cost pricing_data daily_gb_ingested "us-east-1" is_ia ∧
    (calculate_new_cloudwatch_cost pricing_data daily_gb_ingested region is_ia).isSome := by
  unfold calculate_old_cloudwatch_cost calculate_new_cloudwatch_cost
  rw [regionLookup_of_missing pricing_data region h, regionLookup_default, hdef]
  exact ⟨rfl, rfl, rfl, rfl⟩

/-- Witness for C5: region `eu-west-1` is absent from the sample document and
resolves to the `us-east-1` rates. -/
theorem unknown_region_fallback_witness :
    samplePd "eu-west-1" = none ∧ samplePd "us-east-1" = some samplePricing ∧
    calculate_old_cloudwatch_cost samplePd 100 7 "eu-west-1" =
      calculate_old_cloudwatch_cost samplePd 100 7 "us-east-1" :=
  ⟨rfl, rfl,
   (unknown_region_fallback samplePd "eu-west-1" rfl samplePricing rfl 100 7 4 false).1⟩

/-- C10: whenever `daily * 30 ≤ 10000` — negative daily volumes included —
`calculate_new_cloudwatch_cost` returns a result (never a rejection) whose
bands 2-4 cost zero, whose monthly total is `daily * 30` times the selected
schedule's `first_10tb` rate and whose daily total is `daily` times that
rate; a negative daily volume with a positive rate therefore yields a
negative cost. -/
theorem small_volume_breakdown (pricing_data : PricingData) (region : String)
    (rp : RegionPricing) (h : regionLookup pricing_data region = some rp)
    (daily_gb_ingested : ℚ) ( is_ia : Bool)
    (hle : daily_gb_ingested * 30 ≤ 10000) :
    ∃ res : NewCostResult,
      calculate_new_cloudwatch_cost pricing_data daily_gb_ingested region is_ia = some res ∧
      res.tier2_cost = 0 ∧ res.tier3_cost = 0 ∧ res.tier4_cost = 0 ∧
      res.total_monthly_cost = daily_gb_ingested * 30 *
        (if is_ia then rp.logs.vended_logs.to_cloudwatch_logs_infrequent
         else rp.logs.vended_logs.to_cloudwatch_logs_standard).first_10tb ∧
      res.total_daily_cost = daily_gb_ingested *
        (if is_ia then rp.logs.vended_logs.to_cloudwatch_logs_infrequent
         else rp.logs.vended_logs.to_cloudwatch_logs_standard).first_10tb ∧
      (daily_gb_ingested < 0 →
        0 < (if is_ia then rp.logs.vended_logs.to_cloudwatch_logs_infrequent
             else rp.logs.vended_logs.to_cloudwatch_logs_standard).first_10tb →
        res.total_daily_cost < 0) := by
  set vlp := (if is_ia then rp.logs.vended_logs.to_cloudwatch_logs_infrequent
    else rp.logs.vended_logs.to_cloudwatch_logs_standard) with hv
  have hmonth : (tierBreakdown vlp daily_gb_ingested).total_monthly_cost =
      daily_gb_ingested * 30 * vlp.first_10tb := by
    rw [tierBreakdown_total_monthly, tier1_usage_of_le hle, tier2_usage_of_le hle,
      tier3_usage_of_le hle, tier4_usage_of_le hle]
    ring
  have hdaily : (tierBreakdown vlp daily_gb_ingested).total_daily_cost =
      daily_gb_ingested * vlp.first_10tb := by
    rw [tierBreakdown_total_daily, hmonth]
    ring
  refine ⟨tierBreakdown vlp daily_gb_ingested, ?_, ?_, ?_, ?_, hmonth, hdaily, ?_⟩
  · unfold calculate_new_cloudwatch_cost
    rw [h]
  · rw [tierBreakdown_tier2_cost, tier2_usage_of_le hle, zero_mul]
  · rw [tierBreakdown_tier3_cost, tier3_usage_of_le hle, zero_mul]
  · rw [tierBreakdown_tier4_cost, tier4_usage_of_le hle, zero_mul]
  · intro hd hp
    rw [hdaily]
    exact mul_neg_of_neg_of_pos hd hp

/-- Witness for C10 at the negative daily volume `-1` under the sample
pricing: bands 2-4 cost zero and the daily cost is negative. -/
theorem small_volume_breakdown_witness :
    regionLookup samplePd "us-east-1" = some samplePricing ∧ (-1 : ℚ) * 30 ≤ 10000 ∧
    ∃ res : NewCostResult,
      calculate_new_cloudwatch_cost samplePd (-1) "us-east-1" false = some res ∧
      res.tier2_cost = 0 ∧ res.tier3_cost = 0 ∧ res.tier4_cost = 0 ∧
      res.total_monthly_cost = (-1) * 30 * sampleStd.first_10tb ∧
      res.total_daily_cost = (-1) * sampleStd.first_10tb ∧
      ((-1 : ℚ) < 0 → 0 < sampleStd.first_10tb → res.total_daily_cost < 0) :=
  ⟨rfl, by norm_num,
   small_volume_breakdown samplePd "us-east-1" samplePricing rfl (-1) false (by norm_num)⟩

lemma analyze_costs_some_inv (pricing_data : PricingData) (daily_usage : List (String × DayUsage))
    (region : String) (res : CostAnalysis)
    (h : analyze_costs pricing_data daily_usage region = some res) :
    ∃ old_cost standard_cost_data ia_cost_data daily_comparisons,
      calculate_old_cloudwatch_cost pricing_data
        ((daily_usage.map fun day => day.2.standard).sum)
        ((daily_usage.map fun day => day.2.ia).sum) region = some old_cost ∧
      calculate_new_cloudwatch_cost pricing_data
        (((daily_usage.map fun day => day.2.standard).sum) / 30) region false =
        some standard_cost_data ∧
      calculate_new_cloudwatch_cost pricing_data
        (((daily_usage.map fun day => day.2.ia).sum) / 30) region true = some ia_cost_data ∧
      mapRows pricing_data region (List.insertionSort dateLE daily_usage) =
        some daily_comparisons ∧
      res = { total_old_cost := old_cost
              total_new_cost := standard_cost_data.total_monthly_cost +
                ia_cost_data.total_monthly_cost
              total_standard_gb := (daily_usage.map fun day => day.2.standard).sum
              total_ia_gb := (daily_usage.map fun day => day.2.ia).sum
              total_gb := (daily_usage.map fun day => day.2.standard).sum +
                (daily_usage.map fun day => day.2.ia).sum
              daily_comparisons := daily_comparisons
              region := region } := by
  simp only [analyze_costs] at h
  split at h
  · exact absurd h (by simp)
  next old_cost hold =>
    split at h
    · exact absurd h (by simp)
    next standard_cost_data hsd =>
      split at h
      · exact absurd h (by simp)
      next ia_cost_data hiad =>
        split at h
        · exact absurd h (by simp)
        next daily_comparisons hrows =>
          exact ⟨old_cost, standard_cost_data, ia_cost_data, daily_comparisons,
            hold, hsd, hiad, hrows, (Option.some.inj h).symm⟩

lemma tierBreakdown_total_monthly_of_le {d : ℚ} (vlp : TierSchedule) (h : d * 30 ≤ 10000) :
    (tierBreakdown vlp d).total_monthly_cost = d * 30 * vlp.first_10tb := by
  rw [tierBreakdown_total_monthly, tier1_usage_of_le h, tier2_usage_of_le h,
    tier3_usage_of_le h, tier4_usage_of_le h]
  ring

/-- C6: analyzing an empty usage collection succeeds and yields zero totals
and an empty sequence of daily rows. -/
theorem analyze_costs_empty_input (pricing_data : PricingData) (region : String)
    (rp : RegionPricing) (h : regionLookup pricing_data region = some rp) :
    analyze_costs pricing_data [] region =
      some { total_old_cost := 0, total_new_cost := 0, total_standard_gb := 0,
             total_ia_gb := 0, total_gb := 0, daily_comparisons := [], region := region } := by
  simp only [analyze_costs, calculate_old_cloudwatch_cost, calculate_new_cloudwatch_cost, h,
    List.map_nil, List.sum_nil, List.insertionSort, mapRows]
  rw [tierBreakdown_total_monthly_of_le _ (by norm_num),
    tierBreakdown_total_monthly_of_le _ (by norm_num)]
  norm_num

/-- Witness for C6 under the sample pricing document. -/
theorem analyze_costs_empty_input_witness :
    regionLookup samplePd "us-east-1" = some samplePricing ∧
    analyze_costs samplePd [] "us-east-1" =
      some { total_old_cost := 0, total_new_cost := 0, total_standard_gb := 0,
             total_ia_gb := 0, total_gb := 0, daily_comparisons := [],
             region := "us-east-1" } :=
  ⟨rfl, analyze_costs_empty_input samplePd "us-east-1" samplePricing rfl⟩

/-- C7: whenever `analyze_costs` returns a result, its standard and IA totals
are the sums over all records, `total_old_cost` is the flat cost of those
totals, and `total_new_cost` is the sum of the monthly totals of exactly two
tiered invocations: the standard total divided by 30 with the standard
schedule and the IA total divided by 30 with the infrequent schedule. -/
theorem analyze_costs_totals (pricing_data : PricingData) (daily_usage : List (String × DayUsage))
    (region : String) (res : CostAnalysis)
    (h : analyze_costs pricing_data daily_usage region = some res) :
    res.total_standard_gb = (daily_usage.map fun day => day.2.standard).sum ∧
    res.total_ia_gb = (daily_usage.map fun day => day.2.ia).sum ∧
    res.total_gb = res.total_standard_gb + res.total_ia_gb ∧
    calculate_old_cloudwatch_cost pricing_data res.total_standard_gb res.total_ia_gb region =
      some res.total_old_cost ∧
    ∃ standard_cost_data ia_cost_data,
      calculate_new_cloudwatch_cost pricing_data (res.total_standard_gb / 30) region false =
        some standard_cost_data ∧
      calculate_new_cloudwatch_cost pricing_data (res.total_ia_gb / 30) region true =
        some ia_cost_data ∧
      res.total_new_cost =
        standard_cost_data.total_monthly_cost + ia_cost_data.total_monthly_cost := by
  obtain ⟨o, sd, iad, rows, hold, hsd, hiad, hrows, rfl⟩ := analyze_costs_some_inv _ _ _ _ h
  exact ⟨rfl, rfl, rfl, hold, sd, iad, hsd, hiad, rfl⟩

/-- Witness for C7 on one day with 60 standard GB and 30 IA GB under the
sample pricing document. -/
theorem analyze_costs_totals_witness :
    ∃ res : CostAnalysis,
      analyze_costs samplePd [("2025-04-01", ⟨60, 30⟩)] "us-east-1" = some res ∧
      res.total_standard_gb = 60 ∧ res.total_ia_gb = 30 ∧
      calculate_old_cloudwatch_cost samplePd res.total_standard_gb res.total_ia_gb "us-east-1" =
        some res.total_old_cost := by
  have hres : analyze_costs samplePd [("2025-04-01", ⟨60, 30⟩)] "us-east-1" =
      some { total_old_cost := 75/2, total_new_cost := 45/2, total_standard_gb := 60,
             total_ia_gb := 30, total_gb := 90,
             daily_comparisons := [⟨"2025-04-01", 75/2, 45/2, 60, 30, 90, -15⟩],
             region := "us-east-1" } := by
    norm_num [analyze_costs, calculate_old_cloudwatch_cost, calculate_new_cloudwatch_cost,
      regionLookup, samplePd, samplePricing, tierBreakdown, tier1_threshold, tier2_threshold,
      tier3_threshold, TB_to_GB, min_def, mapRows, dailyRow, List.insertionSort,
      List.orderedInsert, dateLE]
  exact ⟨_, hres, rfl, rfl, (analyze_costs_totals _ _ _ _ hres).2.2.2.1⟩

lemma dailyRow_date (pricing_data : PricingData) (region : String)
    (entry : String × DayUsage) (row : DailyComparison)
    (h : dailyRow pricing_data region entry = some row) : row.date = entry.1 := by
  simp only [dailyRow] at h
  split at h
  · exact absurd h (by simp)
  next =>
    split at h
    · exact absurd h (by simp)
    next =>
      split at h
      · exact absurd h (by simp)
      next =>
        rw [← Option.some.inj h]

lemma mapRows_dates (pricing_data : PricingData) (region : String) :
    ∀ (l : List (String × DayUsage)) (rows : List DailyComparison),
      mapRows pricing_data region l = some rows →
      rows.map DailyComparison.date = l.map Prod.fst
  | [], rows, h => by
    simp only [mapRows] at h
    rw [← Option.some.inj h]
    simp
  | entry :: rest, rows, h => by
    simp only [mapRows] at h
    split at h
    · exact absurd h (by simp)
    next row hrow =>
      split at h
      · exact absurd h (by simp)
      next rs hrs =>
        rw [← Option.some.inj h]
        simp only [List.map_cons]
        rw [dailyRow_date pricing_data region entry row hrow,
          mapRows_dates pricing_data region rest rs hrs]

/-- C8: when the input dates are distinct (as Python dict keys are), the daily
comparison rows of a successful `analyze_costs` carry the input dates as a
permutation, sorted ascending, with exactly one row per input date. -/
theorem daily_rows_sorted_unique (pricing_data : PricingData)
    (daily_usage : List (String × DayUsage)) (region : String) (res : CostAnalysis)
    (h : analyze_costs pricing_data daily_usage region = some res)
    (hnd : (daily_usage.map Prod.fst).Nodup) :
    (res.daily_comparisons.map DailyComparison.date).Perm (daily_usage.map Prod.fst) ∧
    (res.daily_comparisons.map DailyComparison.date).Sorted (· ≤ ·) ∧
    ∀ d ∈ daily_usage.map Prod.fst,
      (res.daily_comparisons.map DailyComparison.date).count d = 1 := by
  obtain ⟨o, sd, iad, rows, -, -, -, hrows, rfl⟩ := analyze_costs_some_inv _ _ _ _ h
  dsimp only
  have hdates : rows.map DailyComparison.date =
      (List.insertionSort dateLE daily_usage).map Prod.fst :=
    mapRows_dates _ _ _ _ hrows
  have hperm : (rows.map DailyComparison.date).Perm (daily_usage.map Prod.fst) := by
    rw [hdates]
    exact (List.perm_insertionSort dateLE daily_usage).map Prod.fst
  refine ⟨hperm, ?_, ?_⟩
  · rw [hdates]
    exact List.pairwise_map.mpr (List.sorted_insertionSort dateLE daily_usage)
  · intro d hd
    rw [hperm.count_eq]
    exact List.count_eq_one_of_mem hnd hd

/-- Witness for C8 on two zero-usage days supplied out of order: the rows come
back date-sorted and are a permutation of the input dates. -/
theorem daily_rows_sorted_unique_witness :
    ∃ res : CostAnalysis,
      analyze_costs samplePd [("2025-04-02", ⟨0, 0⟩), ("2025-04-01", ⟨0, 0⟩)] "us-east-1" =
        some res ∧
      (([("2025-04-02", (⟨0, 0⟩ : DayUsage)), ("2025-04-01", ⟨0, 0⟩)]).map Prod.fst).Nodup ∧
      (res.daily_comparisons.map DailyComparison.date).Sorted (· ≤ ·) ∧
      (res.daily_comparisons.map DailyComparison.date).Perm
        (([("2025-04-02", (⟨0, 0⟩ : DayUsage)), ("2025-04-01", ⟨0, 0⟩)]).map Prod.fst) := by
  have hres : analyze_costs samplePd [("2025-04-02", ⟨0, 0⟩), ("2025-04-01", ⟨0, 0⟩)]
      "us-east-1" =
      some { total_old_cost := 0, total_new_cost := 0, total_standard_gb := 0,
             total_ia_gb := 0, total_gb := 0,
             daily_comparisons := [⟨"2025-04-01", 0, 0, 0, 0, 0, 0⟩,
               ⟨"2025-04-02", 0, 0, 0, 0, 0, 0⟩],
             region := "us-east-1" } := by
    norm_num [analyze_costs, calculate_old_cloudwatch_cost, calculate_new_cloudwatch_cost,
      regionLookup, samplePd, samplePricing, tierBreakdown, tier1_threshold, tier2_threshold,
      tier3_threshold, TB_to_GB, min_def, mapRows, dailyRow, List.insertionSort,
      List.orderedInsert, dateLE]
  have hnd : (([("2025-04-02", (⟨0, 0⟩ : DayUsage)), ("2025-04-01", ⟨0, 0⟩)]).map
      Prod.fst).Nodup := by
    simp
  obtain ⟨hperm, hsorted, -⟩ := daily_rows_sorted_unique _ _ _ _ hres hnd
  exact ⟨_, hres, hnd, hsorted, hperm⟩

/-- C9: a usage input on which the sum of the daily rows' `new_cost` differs
from the engine's `total_new_cost`: one day of 15000 standard GB under the
sample rates gives daily rows summing to 2740/3 dollars while the monthly
aggregate tiered cost is 3750 dollars. -/
theorem daily_new_cost_sum_ne_total :
    ∃ res : CostAnalysis,
      analyze_costs samplePd [("2025-04-01", ⟨15000, 0⟩)] "us-east-1" = some res ∧
      (res.daily_comparisons.map DailyComparison.new_cost).sum ≠ res.total_new_cost := by
  refine ⟨{ total_old_cost := 7500, total_new_cost := 3750, total_standard_gb := 15000,
            total_ia_gb := 0, total_gb := 15000,
            daily_comparisons := [⟨"2025-04-01", 7500, 2740/3, 15000, 0, 15000, -19760/3⟩],
            region := "us-east-1" }, ?_, ?_⟩
  · norm_num [analyze_costs, calculate_old_cloudwatch_cost, calculate_new_cloudwatch_cost,
      regionLookup, samplePd, samplePricing, tierBreakdown, tier1_threshold, tier2_threshold,
      tier3_threshold, TB_to_GB, min_def, mapRows, dailyRow, List.insertionSort,
      List.orderedInsert, dateLE]
  · norm_num
